import Mathlib

/-!
Verification development for a trivia-question HTTP service (Flask app `app.py`).

The repository's persistence layer is a relational table of questions and a
table of categories; we model both as Lean lists.  A query without an
`order_by` clause enumerates rows in the table's list order; `order_by(id)`
is modelled by an explicit insertion sort on identifiers.  All endpoint
handlers are embedded as pure Lean functions over these lists.
-/

namespace Trivia

/-- A row of the `questions` table (`models.Question`):
`id`, `question`, `answer`, `category`, `difficulty`. -/
structure Question where
  id : Nat
  question : String
  answer : String
  category : Nat
  difficulty : Nat
deriving DecidableEq, Repr

/-- A row of the `categories` table (`models.Category`): `id` and `type`. -/
structure Category where
  id : Nat
  «type» : String
deriving DecidableEq, Repr

/-- `QUESTIONS_PER_PAGE = 10` (app.py line 11). -/
def QUESTIONS_PER_PAGE : Nat := 10

/-- The JSON error envelope produced by the Flask error handlers:
`{"success": false, "error": <status>, "message": <string>}`. -/
structure ErrEnvelope where
  success : Bool
  error : Nat
  message : String
deriving DecidableEq, Repr

/-- Body of the 404 handler `not_found` (app.py lines 176-182). -/
def not_found : ErrEnvelope := ⟨false, 404, "resource not found"⟩

/-- Body of the 422 handler `unprocessable` (app.py lines 184-190). -/
def unprocessable : ErrEnvelope := ⟨false, 422, "unprocessable"⟩

/-- Body of the catch-all handler `server_error` (app.py lines 208-214). -/
def server_error : ErrEnvelope := ⟨false, 500, "something went wrong"⟩

/-- An HTTP response: either a 200 body or an error envelope. -/
inductive HttpResp (α : Type) where
  | ok (body : α)
  | err (e : ErrEnvelope)
deriving DecidableEq, Repr

/-- Python slice `l[start:stop]`: negative indices count from the end and
both bounds are clamped to `[0, len]`; out-of-range bounds never raise. -/
def pySlice {α : Type} (l : List α) (start stop : Int) : List α :=
  let n : Int := l.length
  let s : Int := if start < 0 then max (n + start) 0 else min start n
  let e : Int := if stop < 0 then max (n + stop) 0 else min stop n
  (l.take e.toNat).drop s.toNat

/-- Parse an integer literal — an optional minus sign followed by at least
one digit — as both Python's `int(...)` conversion and the store's
integer-column coercion do; anything else fails. -/
def strToInt (s : String) : Option Int :=
  match s.data with
  | [] => none
  | '-' :: ds =>
    if ds ≠ [] ∧ ds.all Char.isDigit then
      some (-(ds.foldl (fun n c => n * 10 + (c.toNat - 48)) 0 : Nat))
    else none
  | ds =>
    if ds ≠ [] ∧ ds.all Char.isDigit then
      some ((ds.foldl (fun n c => n * 10 + (c.toNat - 48)) 0 : Nat))
    else none

/-- `request.args.get('page', 1, type=int)`: an absent or unparsable `page`
query argument defaults to 1 (any parsable integer, even `0` or a negative
one, is accepted as-is). -/
def page_arg (arg : Option String) : Int :=
  (arg.bind strToInt).getD 1

/-- `paginate_data` (app.py lines 14-20): `start = (page-1)*QUESTIONS_PER_PAGE`,
`end = start + QUESTIONS_PER_PAGE`, result `= data[start:end]`.  The
`item.format()` step only re-serialises each row, so it is the identity in
this model. -/
def paginate_data {α : Type} (page : Int) (given_data : List α) : List α :=
  let start : Int := (page - 1) * (QUESTIONS_PER_PAGE : Int)
  pySlice given_data start (start + (QUESTIONS_PER_PAGE : Int))

/-- Insert a question into a list sorted by ascending `id`. -/
def insertById (q : Question) : List Question → List Question
  | [] => [q]
  | r :: rest => if q.id ≤ r.id then q :: r :: rest else r :: insertById q rest

/-- `Question.query.order_by(Question.id).all()`: the table enumerated in
ascending-identifier order. -/
def orderById : List Question → List Question
  | [] => []
  | q :: rest => insertById q (orderById rest)

/-- Successful body of `get_paginted_all_questions` (app.py lines 22-33). -/
structure PaginatedQuestions where
  questions : List Question
  total_questions : Nat
deriving DecidableEq, Repr

/-- `get_paginted_all_questions` (app.py lines 22-33): order all questions by
id, paginate, `abort(404)` (here `none`) when the page is empty, else return
the page plus the total count of all questions. -/
def get_paginted_all_questions (store : List Question) (page : Int) :
    Option PaginatedQuestions :=
  let current_question := paginate_data page (orderById store)
  if current_question.length = 0 then none
  else some ⟨current_question, store.length⟩

/-- Successful body of the DELETE `/questions/<id>` endpoint. -/
structure DeleteBody where
  deleted : Nat
  questions : List Question
  total_questions : Nat
deriving DecidableEq, Repr

/-- `delete_question` (app.py lines 73-91).  Everything runs inside a bare
`try/except` that ends in `abort(422)`, so the `abort(404)` raised for a
missing id — and the `abort(404)` raised by re-pagination when the page is
empty — are both swallowed and resurface as a 422 response.  The deletion
itself is committed before re-pagination, so the second component (the store
after the request) reflects it even on the 422 path. -/
def delete_question (store : List Question) (question_id : Nat) (page : Int) :
    HttpResp DeleteBody × List Question :=
  match store.find? (fun q => q.id == question_id) with
  | none => (.err unprocessable, store)
  | some _ =>
    let store2 := store.filter (fun q => q.id != question_id)
    match get_paginted_all_questions store2 page with
    | none => (.err unprocessable, store2)
    | some pg => (.ok ⟨question_id, pg.questions, pg.total_questions⟩, store2)

/-! ### Search endpoint -/

/-- `f (c::t) || f t || ... || f []`: does `f` hold of some suffix? -/
def anySuffix (f : List Char → Bool) : List Char → Bool
  | [] => f []
  | c :: t => f (c :: t) || anySuffix f t

/-- SQL `LIKE` pattern matching over characters, as evaluated by the store
for `Question.question.ilike(...)`: `%` matches any sequence, `_` matches
any single character, and a backslash escapes the following pattern
character (the store's default escape).  A pattern ending in a lone
backslash matches nothing. -/
def likeMatch : List Char → List Char → Bool
  | [], s => s.isEmpty
  | p :: ps, s =>
    if p = '%' then anySuffix (likeMatch ps) s
    else if p = '_' then
      match s with
      | [] => false
      | _ :: t => likeMatch ps t
    else if p = '\\' then
      match ps with
      | [] => false
      | q :: ps2 =>
        match s with
        | [] => false
        | c :: t => (q == c) && likeMatch ps2 t
    else
      match s with
      | [] => false
      | c :: t => (p == c) && likeMatch ps t

/-- `column.ilike(pattern)`: case-insensitive `LIKE`, i.e. `LIKE` after
lower-casing both the text and the pattern. -/
def ilike (text pattern : String) : Bool :=
  likeMatch (pattern.data.map Char.toLower) (text.data.map Char.toLower)

/-- `p` occurs as a contiguous substring of `s`. -/
def containsSub (p : List Char) : List Char → Bool
  | [] => p.isPrefixOf []
  | c :: t => p.isPrefixOf (c :: t) || containsSub p t

/-- `w` contains no character with a special meaning in a LIKE pattern. -/
abbrev noWild (w : List Char) : Prop :=
  ∀ c ∈ w, c ≠ '%' ∧ c ≠ '_' ∧ c ≠ '\\'

/-- Successful body of the POST `/questions/search` endpoint. -/
structure SearchBody where
  questions : List Question
  total_questions : Nat
deriving DecidableEq, Repr

/-- `search_question` (app.py lines 110-123): filter by
`Question.question.ilike(f'%{search}%')` and return the matches together
with their count. -/
def search_question (store : List Question) (search : String) : SearchBody :=
  let questions := store.filter (fun q => ilike q.question ("%" ++ search ++ "%"))
  ⟨questions, questions.length⟩

/-! ### Category-scoped listing -/

/-- Successful body of GET `/categories/<id>/questions`. -/
structure CategoryQuestionsBody where
  questions : List Question
  total_questions : Nat
  current_category : String
deriving DecidableEq, Repr

/-- `retrieve_questions_for_category` (app.py lines 125-141): filter questions
by category, order by id, paginate; `abort(404)` on an empty page.  On a
non-empty page, `total_questions` is `len(Question.query.all())` — the size
of the whole store, not of the category.  `Category.query.get(id).type`
raises `AttributeError` when the category row is missing, which the
`Exception` handler turns into a 500 response. -/
def retrieve_questions_for_category (store : List Question) (cats : List Category)
    (category_id : Nat) (page : Int) : HttpResp CategoryQuestionsBody :=
  let questions := orderById (store.filter (fun q => q.category == category_id))
  let current_question := paginate_data page questions
  if current_question.length = 0 then .err not_found
  else
    match cats.find? (fun c => c.id == category_id) with
    | some c => .ok ⟨current_question, store.length, c.type⟩
    | none => .err server_error

/-! ### Quiz selector -/

/-- A JSON scalar as it arrives in `quiz_category['id']`: a number or a
string. -/
inductive JVal where
  | jnum (n : Nat)
  | jstr (s : String)
deriving DecidableEq, Repr

/-- Python truthiness of `quiz_category.get('id')`: `None` (absent), `0` and
`''` are falsy; everything else is truthy. -/
def jvalTruthy : Option JVal → Bool
  | none => false
  | some (.jnum n) => n != 0
  | some (.jstr s) => s != ""

/-- The integer value the store compares `Question.category` against, when
the supplied quiz-category id is pushed into the query; a string id goes
through the integer-literal coercion `strToInt`, and a non-coercible one
raises a data error. -/
def jvalToInt : JVal → Option Int
  | .jnum n => some (n : Int)
  | .jstr s => strToInt s

/-- `Question.query.filter(~Question.id.in_(previous_questions))`
(app.py line 155): every question whose id is not in the exclusion list,
in table order. -/
def quizBaseQuery (store : List Question) (previous_questions : List Nat) :
    List Question :=
  store.filter (fun q => !(previous_questions.contains q.id))

/-- The conditional category filter (app.py lines 156-157): applied only when
`quiz_category.get('id')` is truthy; a non-coercible id value makes the
query raise (surfacing as `Except.error`). -/
def applyQuizCategory (qs : List Question) (quizCatId : Option JVal) :
    Except Unit (List Question) :=
  if jvalTruthy quizCatId then
    match quizCatId with
    | none => .ok qs
    | some v =>
      match jvalToInt v with
      | some n => .ok (qs.filter (fun q => ((q.category : Int) == n)))
      | none => .error ()
  else .ok qs

/-- The eligible set of the quiz selector: exclusion filter, then the
conditional category filter. -/
def eligibleQuestions (store : List Question) (previous_questions : List Nat)
    (quizCatId : Option JVal) : Except Unit (List Question) :=
  applyQuizCategory (quizBaseQuery store previous_questions) quizCatId

/-- `quiz_question` (app.py lines 143-173).  `rand` stands for the value of
`random.randrange(0, questions_count)`, which is always `< questions_count`;
the out-of-range arm mirrors the `IndexError` that `questions[rand]` would
raise, which the bare `except` turns into 422 like every other exception
(including the store's data error on a non-numeric category id). -/
def quiz_question (store : List Question) (previous_questions : List Nat)
    (quizCatId : Option JVal) (rand : Nat) : HttpResp (Option Question) :=
  match eligibleQuestions store previous_questions quizCatId with
  | .error _ => .err unprocessable
  | .ok questions =>
    if questions.length ≠ 0 then
      match questions[rand]? with
      | some q => .ok (some q)
      | none => .err unprocessable
    else .ok none

/-! ## Pagination lemmas -/

/-- For a non-negative start, a Python slice of width `k` is drop-then-take. -/
theorem pySlice_nonneg {α : Type} (l : List α) (a : Int) (k : Nat) (ha : 0 ≤ a) :
    pySlice l a (a + k) = (l.drop a.toNat).take k := by
  have h1 : ¬ a < 0 := by omega
  have h2 : ¬ a + k < 0 := by omega
  simp only [pySlice, if_neg h1, if_neg h2]
  by_cases hA : a ≤ (l.length : Int)
  · have hminA : (min a (l.length : Int)).toNat = a.toNat := by omega
    by_cases hK : a + k ≤ (l.length : Int)
    · have hminK : (min (a + k) (l.length : Int)).toNat = a.toNat + k := by omega
      rw [hminA, hminK, List.drop_take]
      congr 1
      omega
    · have hminK : (min (a + k) (l.length : Int)).toNat = l.length := by omega
      rw [hminA, hminK, List.take_length]
      refine (List.take_of_length_le ?_).symm
      rw [List.length_drop]
      omega
  · have hminA : (min a (l.length : Int)).toNat = l.length := by omega
    have hminK : (min (a + k) (l.length : Int)).toNat = l.length := by omega
    rw [hminA, hminK, List.take_length, List.drop_length]
    rw [List.drop_eq_nil_iff.mpr (by omega)]
    simp

/-- For a page number of at least 1, `paginate_data` is the standard
drop-then-take slice of width 10. -/
theorem paginate_data_eq_drop_take {α : Type} (items : List α) (page : Int)
    (h : 1 ≤ page) :
    paginate_data page items = (items.drop ((page - 1) * 10).toNat).take 10 := by
  have ha : 0 ≤ (page - 1) * 10 := by
    have h0 : 0 ≤ page - 1 := by omega
    exact mul_nonneg h0 (by norm_num)
  have := pySlice_nonneg items ((page - 1) * 10) 10 ha
  simpa [paginate_data, QUESTIONS_PER_PAGE] using this

/-- C4: for every ordered item list and every pageNumber ≥ 1 (pageSize fixed
at 10), pagination returns exactly the slice
`items[(pageNumber-1)*10 : pageNumber*10]` under standard slice semantics,
and the result's length is at most 10. -/
theorem paginate_data_slice {α : Type} (items : List α) (page : Int)
    (h : 1 ≤ page) :
    paginate_data page items = (items.drop ((page - 1) * 10).toNat).take 10 ∧
    (paginate_data page items).length ≤ 10 := by
  refine ⟨paginate_data_eq_drop_take items page h, ?_⟩
  rw [paginate_data_eq_drop_take items page h]
  exact List.length_take_le 10 _

theorem paginate_data_slice_witness :
    (1 : Int) ≤ 2 ∧
    (paginate_data 2 (List.range 25) =
        ((List.range 25).drop (((2 : Int) - 1) * 10).toNat).take 10 ∧
      (paginate_data 2 (List.range 25)).length ≤ 10) :=
  ⟨by norm_num, paginate_data_slice (List.range 25) 2 (by norm_num)⟩

/-- C5 counterexample: the pagination operation accepts the page number 0
(`int("0")` parses, so no defaulting happens), and there the page is empty
although `(0-1)*10 ≥ |items|` fails — the claimed equivalence does not hold
for every accepted page number. -/
theorem paginate_data_empty_iff_cex :
    page_arg (some "0") = 0 ∧
    paginate_data (page_arg (some "0")) [(1 : Nat)] = [] ∧
    ¬((page_arg (some "0") - 1) * 10 ≥ (([(1 : Nat)].length : Int))) := by
  decide

/-- C5 (amended): for every pageNumber ≥ 1 — which covers the defaulted
value 1 used for absent or unparsable page arguments — the returned page is
empty iff `(pageNumber-1)*10 ≥ |items|`; for accepted page numbers below 1
the page is always empty. -/
theorem paginate_data_empty_iff {α : Type} (items : List α) (page : Int)
    (h : 1 ≤ page) :
    paginate_data page items = [] ↔ (page - 1) * 10 ≥ (items.length : Int) := by
  rw [paginate_data_eq_drop_take items page h, List.take_eq_nil_iff]
  have h10 : (10 : Nat) ≠ 0 := by norm_num
  simp only [h10, false_or]
  rw [List.drop_eq_nil_iff]
  omega

theorem paginate_data_empty_iff_witness :
    (1 : Int) ≤ 3 ∧
    (paginate_data 3 [(1 : Nat), 2, 3] = [] ↔
      ((3 : Int) - 1) * 10 ≥ (([(1 : Nat), 2, 3].length : Int))) :=
  ⟨by norm_num, paginate_data_empty_iff [(1 : Nat), 2, 3] 3 (by norm_num)⟩

/-! ## Quiz selector lemmas -/

/-- A successfully computed eligible set is a sub-sequence of the exclusion
query's result. -/
theorem eligible_sublist {store : List Question} {previous : List Nat}
    {cat : Option JVal} {el : List Question}
    (h : eligibleQuestions store previous cat = .ok el) :
    el.Sublist (quizBaseQuery store previous) := by
  unfold eligibleQuestions applyQuizCategory at h
  split at h
  · match cat with
    | none =>
      injection h with h
      subst h
      exact List.Sublist.refl _
    | some v =>
      simp only at h
      cases hv : jvalToInt v with
      | some n =>
        rw [hv] at h
        injection h with h
        subst h
        exact List.filter_sublist _
      | none => rw [hv] at h; cases h
  · injection h with h
    subst h
    exact List.Sublist.refl _

/-- C1: the quiz selection operation never returns a question whose
identifier is in the caller-supplied `previous_questions` list. -/
theorem quiz_question_no_repeat (store : List Question) (previous : List Nat)
    (cat : Option JVal) (rand : Nat) (q : Question)
    (h : quiz_question store previous cat rand = .ok (some q)) :
    q.id ∉ previous := by
  unfold quiz_question at h
  split at h
  · cases h
  · rename_i el heq
    split at h
    · split at h
      · rename_i q' hg
        simp only [HttpResp.ok.injEq, Option.some.injEq] at h
        subst h
        have hmem : q' ∈ quizBaseQuery store previous :=
          (eligible_sublist heq).mem (List.getElem?_mem hg)
        rw [quizBaseQuery, List.mem_filter] at hmem
        simpa using hmem.2
      · cases h
    · cases h

theorem quiz_question_no_repeat_witness :
    (quiz_question [(⟨1, "a", "b", 1, 1⟩ : Question)] [2] none 0 =
      .ok (some ⟨1, "a", "b", 1, 1⟩)) ∧
    (⟨1, "a", "b", 1, 1⟩ : Question).id ∉ ([2] : List Nat) :=
  ⟨by decide,
    quiz_question_no_repeat [⟨1, "a", "b", 1, 1⟩] [2] none 0 ⟨1, "a", "b", 1, 1⟩
      (by decide)⟩

/-- C2: when the eligible set is non-empty and the store enumerates its rows
in ascending-identifier order (the repository's monotonic-id invariant), the
eligible set is in ascending-identifier order and, for every drawn index
`i < eligibleCount`, the selector returns exactly its `i`-th element. -/
theorem quiz_question_uniform_pick (store : List Question) (previous : List Nat)
    (cat : Option JVal) (el : List Question) (i : Nat)
    (hsort : store.Pairwise (fun a b => a.id < b.id))
    (hel : eligibleQuestions store previous cat = .ok el)
    (hi : i < el.length) :
    el.Pairwise (fun a b => a.id < b.id) ∧
    quiz_question store previous cat i = .ok (some el[i]) := by
  have hsub : el.Sublist store :=
    (eligible_sublist hel).trans (List.filter_sublist _)
  refine ⟨List.Pairwise.sublist hsub hsort, ?_⟩
  unfold quiz_question
  rw [hel]
  dsimp only
  rw [if_pos (show el.length ≠ 0 by omega)]
  rw [List.getElem?_eq_getElem hi]

theorem quiz_question_uniform_pick_witness :
    quiz_question [(⟨1, "a", "b", 1, 1⟩ : Question), ⟨2, "c", "d", 1, 1⟩] [] none 1 =
      .ok (some (⟨2, "c", "d", 1, 1⟩ : Question)) :=
  (quiz_question_uniform_pick [⟨1, "a", "b", 1, 1⟩, ⟨2, "c", "d", 1, 1⟩] []
    none [⟨1, "a", "b", 1, 1⟩, ⟨2, "c", "d", 1, 1⟩] 1 (by decide) rfl
    (by decide)).2

/-- C7: whenever the eligible set is empty (well-formed request, so the
eligible set computes successfully), the quiz endpoint returns a successful
response with a null question, not an error. -/
theorem quiz_question_empty_none (store : List Question) (previous : List Nat)
    (cat : Option JVal) (rand : Nat)
    (h : eligibleQuestions store previous cat = .ok []) :
    quiz_question store previous cat rand = .ok none := by
  unfold quiz_question
  rw [h]
  simp

theorem quiz_question_empty_none_witness :
    (eligibleQuestions [] [] none = .ok []) ∧
    quiz_question [] [] none 0 = .ok none :=
  ⟨rfl, quiz_question_empty_none [] [] none 0 rfl⟩

/-- C6: a quiz-category id of 0 and an absent id both mean "no category
restriction" — the eligible set is then exactly the store minus the excluded
identifiers — and the category equality filter is applied exactly when the
supplied id is truthy. -/
theorem quiz_category_sentinel (store : List Question) (previous : List Nat)
    (rand : Nat) :
    quiz_question store previous (some (JVal.jnum 0)) rand =
      quiz_question store previous none rand ∧
    eligibleQuestions store previous (some (JVal.jnum 0)) =
      .ok (quizBaseQuery store previous) ∧
    eligibleQuestions store previous none =
      .ok (quizBaseQuery store previous) ∧
    (∀ n : Nat, n ≠ 0 →
      eligibleQuestions store previous (some (JVal.jnum n)) =
        .ok ((quizBaseQuery store previous).filter
          (fun q => ((q.category : Int) == (n : Int))))) := by
  refine ⟨rfl, rfl, rfl, ?_⟩
  intro n hn
  unfold eligibleQuestions applyQuizCategory
  rw [if_pos (by simp [jvalTruthy, hn])]
  rfl

theorem quiz_category_sentinel_witness :
    eligibleQuestions [(⟨1, "a", "b", 2, 1⟩ : Question)] [] (some (JVal.jnum 2)) =
      .ok ((quizBaseQuery [⟨1, "a", "b", 2, 1⟩] []).filter
        (fun q => ((q.category : Int) == ((2 : Nat) : Int)))) :=
  (quiz_category_sentinel [⟨1, "a", "b", 2, 1⟩] [] 0).2.2.2 2 (by decide)

/-- C3 counterexample: the empty string is a supplied category id that is
not numeric, yet the quiz request succeeds with a null question instead of
failing 422 — it is silently ignored, because `''` is falsy so the code
never validates it. -/
theorem quiz_nonnumeric_422_cex :
    strToInt "" = none ∧
    quiz_question [] [] (some (JVal.jstr "")) 0 = .ok none := by
  decide

/-- C3 (amended): when the supplied quiz-category id is a truthy (non-empty)
string that is not integer-shaped, the quiz operation fails with the 422
envelope whose message is "unprocessable"; a supplied empty-string id is
falsy and is silently treated as "no category restriction". -/
theorem quiz_nonnumeric_422 (store : List Question) (previous : List Nat)
    (rand : Nat) (s : String) (hne : s ≠ "") (hnum : strToInt s = none) :
    quiz_question store previous (some (JVal.jstr s)) rand =
      .err unprocessable ∧
    unprocessable.error = 422 ∧
    unprocessable.message = "unprocessable" := by
  have hel : eligibleQuestions store previous (some (JVal.jstr s)) = .error () := by
    unfold eligibleQuestions applyQuizCategory
    rw [if_pos (by simp [jvalTruthy, hne])]
    simp only [jvalToInt]
    rw [hnum]
  refine ⟨?_, rfl, rfl⟩
  unfold quiz_question
  rw [hel]

theorem quiz_nonnumeric_422_witness :
    ("abc" ≠ "" ∧ strToInt "abc" = none) ∧
    (quiz_question [] [] (some (JVal.jstr "abc")) 0 = .err unprocessable ∧
      unprocessable.error = 422 ∧ unprocessable.message = "unprocessable") :=
  ⟨⟨by decide, by decide⟩,
    quiz_nonnumeric_422 [] [] 0 "abc" (by decide) (by decide)⟩

/-! ## Delete and category-listing lemmas -/

/-- C8: deleting an identifier absent from the store fails with the 422
"unprocessable" envelope, not with 404 — the `abort(404)` raised inside the
handler's `try` block is swallowed by the bare `except` and re-raised as
422.  (Of the two spec statements, the "422, not NotFound" scenario matches
the code; the interface table's "404 if absent" does not.)  The store is
left unchanged. -/
theorem delete_question_absent_422 (store : List Question) (question_id : Nat)
    (page : Int) (h : ∀ q ∈ store, q.id ≠ question_id) :
    delete_question store question_id page = (.err unprocessable, store) ∧
    unprocessable.error = 422 ∧ unprocessable.error ≠ 404 := by
  have hfind : store.find? (fun q => q.id == question_id) = none := by
    rw [List.find?_eq_none]
    intro q hq
    simpa using h q hq
  unfold delete_question
  rw [hfind]
  exact ⟨rfl, rfl, by decide⟩

theorem delete_question_absent_422_witness :
    (∀ q ∈ [(⟨1, "a", "b", 1, 1⟩ : Question)], q.id ≠ 1000) ∧
    (delete_question [(⟨1, "a", "b", 1, 1⟩ : Question)] 1000 1 =
        (.err unprocessable, [(⟨1, "a", "b", 1, 1⟩ : Question)]) ∧
      unprocessable.error = 422 ∧ unprocessable.error ≠ 404) :=
  ⟨by decide, delete_question_absent_422 [⟨1, "a", "b", 1, 1⟩] 1000 1 (by decide)⟩

/-- C10: every successful response of GET `/categories/{id}/questions`
reports `total_questions` as the size of the whole store (all categories),
while the search endpoint's `total_questions` is the size of its filtered
result set. -/
theorem category_questions_total (store : List Question) (cats : List Category)
    (category_id : Nat) (page : Int) (body : CategoryQuestionsBody)
    (term : String)
    (h : retrieve_questions_for_category store cats category_id page = .ok body) :
    body.total_questions = store.length ∧
    (search_question store term).total_questions =
      (search_question store term).questions.length := by
  refine ⟨?_, rfl⟩
  unfold retrieve_questions_for_category at h
  dsimp only at h
  split at h
  · cases h
  · split at h
    · cases h
      rfl
    · cases h

theorem category_questions_total_witness :
    (retrieve_questions_for_category [(⟨1, "a", "b", 1, 1⟩ : Question)]
        [(⟨1, "Science"⟩ : Category)] 1 1 =
      .ok ⟨[⟨1, "a", "b", 1, 1⟩], 1, "Science"⟩) ∧
    (⟨[⟨1, "a", "b", 1, 1⟩], 1, "Science"⟩ : CategoryQuestionsBody).total_questions =
      [(⟨1, "a", "b", 1, 1⟩ : Question)].length :=
  ⟨by decide,
    (category_questions_total [⟨1, "a", "b", 1, 1⟩] [⟨1, "Science"⟩] 1 1
      ⟨[⟨1, "a", "b", 1, 1⟩], 1, "Science"⟩ "t" (by decide)).1⟩

/-! ## Search lemmas -/

theorem likeMatch_nil (s : List Char) : likeMatch [] s = s.isEmpty := rfl

theorem likeMatch_pct (ps s : List Char) :
    likeMatch ('%' :: ps) s = anySuffix (likeMatch ps) s := by
  rw [likeMatch.eq_def]
  dsimp only
  rw [if_pos rfl]

theorem likeMatch_plain {a : Char} (ha1 : a ≠ '%') (ha2 : a ≠ '_')
    (ha3 : a ≠ '\\') (ps s : List Char) :
    likeMatch (a :: ps) s =
      match s with
      | [] => false
      | c :: t => (a == c) && likeMatch ps t := by
  rw [likeMatch.eq_def]
  dsimp only
  rw [if_neg ha1, if_neg ha2, if_neg ha3]

theorem anySuffix_likeMatch_nil (s : List Char) :
    anySuffix (likeMatch []) s = true := by
  induction s with
  | nil => rfl
  | cons c t ih => simp [anySuffix, ih]

/-- A wildcard-free pattern followed by `%` matches exactly the texts it is
a literal prefix of. -/
theorem likeMatch_literal :
    ∀ w : List Char, noWild w →
      ∀ s : List Char, likeMatch (w ++ ['%']) s = w.isPrefixOf s := by
  intro w
  induction w with
  | nil =>
    intro _ s
    rw [List.nil_append, likeMatch_pct, anySuffix_likeMatch_nil,
      List.isPrefixOf_nil_left]
  | cons a w ih =>
    intro hw s
    have ha := hw a (List.mem_cons_self a w)
    have hw' : noWild w := fun c hc => hw c (List.mem_cons_of_mem _ hc)
    rw [List.cons_append, likeMatch_plain ha.1 ha.2.1 ha.2.2]
    cases s with
    | nil => rfl
    | cons c t =>
      show ((a == c) && likeMatch (w ++ ['%']) t) = (a :: w).isPrefixOf (c :: t)
      rw [ih hw' t]
      rfl

/-- `'%' ++ w ++ '%'` with `w` wildcard-free matches exactly the texts that
contain `w` as a substring. -/
theorem likeMatch_sub (w : List Char) (hw : noWild w) :
    ∀ s : List Char, likeMatch ('%' :: (w ++ ['%'])) s = containsSub w s := by
  intro s
  rw [likeMatch_pct]
  induction s with
  | nil =>
    show likeMatch (w ++ ['%']) [] = containsSub w []
    rw [likeMatch_literal w hw]
    rfl
  | cons c t ih =>
    show (likeMatch (w ++ ['%']) (c :: t) || anySuffix (likeMatch (w ++ ['%'])) t) =
      containsSub w (c :: t)
    rw [likeMatch_literal w hw, ih]
    rfl

/-- `isPrefixOf` decides the "is a literal prefix" relation. -/
theorem isPrefixOf_exists (p : List Char) :
    ∀ s, p.isPrefixOf s = true ↔ ∃ ys, p ++ ys = s := by
  induction p with
  | nil => intro s; simp [List.isPrefixOf]
  | cons a as ih =>
    intro s
    cases s with
    | nil => simp [List.isPrefixOf]
    | cons c t =>
      show (a == c && as.isPrefixOf t) = true ↔ _
      rw [Bool.and_eq_true, beq_iff_eq, ih t]
      constructor
      · rintro ⟨rfl, ys, rfl⟩
        exact ⟨ys, rfl⟩
      · rintro ⟨ys, h⟩
        simp only [List.cons_append, List.cons.injEq] at h
        exact ⟨h.1, ys, h.2⟩

/-- `containsSub` decides the "occurs as a contiguous substring" relation. -/
theorem containsSub_iff (p : List Char) :
    ∀ s, containsSub p s = true ↔ ∃ xs ys, xs ++ p ++ ys = s := by
  intro s
  induction s with
  | nil =>
    cases p with
    | nil => simp [containsSub, List.isPrefixOf]
    | cons a as => simp [containsSub, List.isPrefixOf]
  | cons c t ih =>
    show (p.isPrefixOf (c :: t) || containsSub p t) = true ↔ _
    rw [Bool.or_eq_true, ih, isPrefixOf_exists]
    constructor
    · rintro (⟨ys, hys⟩ | ⟨xs, ys, h⟩)
      · exact ⟨[], ys, by simpa using hys⟩
      · exact ⟨c :: xs, ys, by simp [h]⟩
    · rintro ⟨xs, ys, h⟩
      cases xs with
      | nil =>
        left
        exact ⟨ys, by simpa using h⟩
      | cons x xs' =>
        right
        simp only [List.cons_append, List.cons.injEq] at h
        exact ⟨xs', ys, h.2⟩

/-- The `%term%` pattern of the search endpoint, lower-cased. -/
theorem search_pattern_data (term : String) :
    ("%" ++ term ++ "%").data.map Char.toLower =
      '%' :: (term.data.map Char.toLower ++ ['%']) := by
  have h1 : ("%".data.map Char.toLower) = ['%'] := by decide
  rw [String.data_append, String.data_append, List.map_append, List.map_append, h1]
  rfl

/-- C9 counterexample: with store `[{id 1, question "x"}]` and search term
`"_"`, the question is in the result set (`_` is a LIKE wildcard matching
any single character) although `"_"` is not a substring of `"x"` — the
claimed equivalence between membership and lowercased-substring fails for
terms containing LIKE wildcards. -/
theorem search_question_substring_cex :
    ((⟨1, "x", "a", 1, 1⟩ : Question) ∈
      (search_question [⟨1, "x", "a", 1, 1⟩] "_").questions) ∧
    containsSub ("_".data.map Char.toLower) ("x".data.map Char.toLower) = false := by
  decide

/-- C9 (amended): for search terms free of the LIKE wildcard and escape
characters `%`, `_` and `\` (equivalently: whose lower-cased form is free of
them), a question is in the result set iff the lowercased term is a
substring of the lowercased question text; and — for all terms — searching
"TITLE" and "title" return identical result sets. -/
theorem search_question_substring (store : List Question) (term : String)
    (q : Question) (st : List Question)
    (hw : noWild (term.data.map Char.toLower)) :
    (q ∈ (search_question store term).questions ↔
      q ∈ store ∧
        containsSub (term.data.map Char.toLower)
          (q.question.data.map Char.toLower) = true) ∧
    search_question st "TITLE" = search_question st "title" := by
  constructor
  · unfold search_question
    dsimp only
    rw [List.mem_filter]
    have hpred : ilike q.question ("%" ++ term ++ "%") =
        containsSub (term.data.map Char.toLower)
          (q.question.data.map Char.toLower) := by
      unfold ilike
      rw [search_pattern_data, likeMatch_sub _ hw]
    rw [hpred]
  · unfold search_question
    have hsame : ∀ r : Question,
        ilike r.question ("%" ++ "TITLE" ++ "%") =
          ilike r.question ("%" ++ "title" ++ "%") := by
      intro r
      unfold ilike
      congr 1
    simp only [hsame]

theorem search_question_substring_witness :
    noWild ("title".data.map Char.toLower) ∧
    (((⟨1, "The Title of it", "a", 1, 1⟩ : Question) ∈
        (search_question [⟨1, "The Title of it", "a", 1, 1⟩] "title").questions ↔
      (⟨1, "The Title of it", "a", 1, 1⟩ : Question) ∈
          [(⟨1, "The Title of it", "a", 1, 1⟩ : Question)] ∧
        containsSub ("title".data.map Char.toLower)
          ("The Title of it".data.map Char.toLower) = true) ∧
    search_question [(⟨1, "The Title of it", "a", 1, 1⟩ : Question)] "TITLE" =
      search_question [(⟨1, "The Title of it", "a", 1, 1⟩ : Question)] "title") :=
  ⟨by decide,
    search_question_substring [⟨1, "The Title of it", "a", 1, 1⟩] "title"
      ⟨1, "The Title of it", "a", 1, 1⟩ [⟨1, "The Title of it", "a", 1, 1⟩]
      (by decide)⟩

end Trivia
